import Mathlib

/-!
Shallow embedding of the `afd` Forth interpreter (src/afd.rs, the richer
"Alien Forth Dialect v0.4" variant, which the specification names as the
canonical engine: value stack, dictionary with builtin and user entries,
tokenizer, number parser, builtin dispatcher, evaluator with the
compile/interactive state machine, and the per-line step of the REPL loop).

Modelling conventions:
- machine bytes are `Nat` (values < 256 in practice);
- `i32` values are `Int` together with `wrap32`, which reduces to the
  two's-complement representative in `[-2^31, 2^31)`; the Rust source
  performs unchecked (wrapping in release builds) `i32` arithmetic;
- the value stack is a `List Int` whose head is the top of the stack
  (`data[top - 1]` in the source); the source's fixed `[i32; 64]` array
  together with its `top` index is observationally this list, since no
  operation ever reads a slot at or above `top`;
- the dictionary is the list of its live entries in insertion order
  (the source's `dictionary[0 .. dict_top]` prefix);
- `&mut self` methods returning `Result` become state-passing functions;
  a method that can leave partial mutations behind on failure
  (`execute_builtin`, `execute_word`, `process_line`) returns
  `Except String Bool × State` so the mutated state survives the error,
  exactly as the Rust borrow does;
- print side effects go through the platform `write_bytes` collaborator
  and are out of the engine's state; only the `run` loop's diagnostic
  lines, which claims mention, are modelled (in `run_iteration`).
-/

namespace Afd

/-- Constant `STACK_SIZE: usize = 64` from src/afd.rs. -/
def STACK_SIZE : Nat := 64

/-- Constant `INPUT_BUFFER_SIZE: usize = 256` from src/afd.rs. -/
def INPUT_BUFFER_SIZE : Nat := 256

/-- Constant `WORD_BUFFER_SIZE: usize = 32` from src/afd.rs. -/
def WORD_BUFFER_SIZE : Nat := 32

/-- Constant `DICTIONARY_SIZE: usize = 32` from src/afd.rs. -/
def DICTIONARY_SIZE : Nat := 32

/-- Constant `MAX_WORD_NAME_LEN: usize = 16` from src/afd.rs. -/
def MAX_WORD_NAME_LEN : Nat := 16

/-- Constant `USER_WORDS_SIZE: usize = 1024` from src/afd.rs. -/
def USER_WORDS_SIZE : Nat := 1024

/-- Two's-complement reduction of an integer into the `i32` range
`[-2^31, 2^31)`; this is what unchecked Rust `i32` arithmetic computes. -/
def wrap32 (x : Int) : Int := (x + 2 ^ 31) % 2 ^ 32 - 2 ^ 31

/-- The value stack: head of the list is the top of the stack. -/
abbrev ForthStack := List Int

namespace ForthStack

/-- Source `ForthStack::new`. -/
def new : ForthStack := []

/-- Source `ForthStack::push`: fails with "Stack overflow" when `top >= STACK_SIZE`,
otherwise stores the value and bumps `top`. -/
def push (s : ForthStack) (value : Int) : Except String ForthStack :=
  if STACK_SIZE ≤ s.length then .error "Stack overflow"
  else .ok (value :: s)

/-- Source `ForthStack::pop`: fails with "Stack underflow" on an empty stack,
otherwise removes and returns the top value. -/
def pop (s : ForthStack) : Except String (Int × ForthStack) :=
  match s with
  | [] => .error "Stack underflow"
  | v :: rest => .ok (v, rest)

/-- Source `ForthStack::peek`: fails with "Stack empty" on an empty stack,
otherwise returns the top value without removing it. -/
def peek (s : ForthStack) : Except String Int :=
  match s with
  | [] => .error "Stack empty"
  | v :: _ => .ok v

/-- Source `ForthStack::size`. -/
def size (s : ForthStack) : Nat := s.length

end ForthStack

/-- A dictionary entry (`struct DictionaryEntry`).  The source stores the
name in a fixed 16-byte array tagged with `name_len`; here `name` holds
exactly the `name_len` stored bytes. -/
structure DictionaryEntry where
  name : List Nat
  name_len : Nat
  is_builtin : Bool
  builtin_id : Nat
  user_word_start : Nat
  user_word_len : Nat
deriving DecidableEq

/-- Source `DictionaryEntry::new`: the zeroed default slot value. -/
def DictionaryEntry.new : DictionaryEntry :=
  { name := [], name_len := 0, is_builtin := true, builtin_id := 0,
    user_word_start := 0, user_word_len := 0 }

instance : Inhabited DictionaryEntry := ⟨DictionaryEntry.new⟩

/-- Builtin ids, `const BUILTIN_* : u8` in src/afd.rs. -/
def BUILTIN_ADD : Nat := 1
def BUILTIN_SUB : Nat := 2
def BUILTIN_MUL : Nat := 3
def BUILTIN_DIV : Nat := 4
def BUILTIN_MOD : Nat := 5
def BUILTIN_DUP : Nat := 6
def BUILTIN_DROP : Nat := 7
def BUILTIN_SWAP : Nat := 8
def BUILTIN_OVER : Nat := 9
def BUILTIN_ROT : Nat := 10
def BUILTIN_DOT : Nat := 11
def BUILTIN_DOTS : Nat := 12
def BUILTIN_CR : Nat := 13
def BUILTIN_BYE : Nat := 14
def BUILTIN_COLON : Nat := 15
def BUILTIN_SEMICOLON : Nat := 16
def BUILTIN_EQUAL : Nat := 17
def BUILTIN_LESS : Nat := 18
def BUILTIN_GREATER : Nat := 19
def BUILTIN_WORDS : Nat := 20

/-- The interpreter session state (`struct ForthInterpreter`).  The line
and word buffers are transient scratch space whose contents are the line /
token being processed, so they appear as arguments of `process_line` and
`execute_word` rather than as fields; `dict_top` is `dictionary.length`.
The user-word body arena `user_words` is carried as a byte list so that
claims about it being never written can be stated. -/
structure ForthInterpreter where
  stack : ForthStack
  dictionary : List DictionaryEntry
  user_words : List Nat
  user_words_top : Nat
  compiling : Bool
  current_def_start : Nat
deriving DecidableEq

/-- Source `ForthInterpreter::new`. -/
def ForthInterpreter.new : ForthInterpreter :=
  { stack := ForthStack.new, dictionary := [],
    user_words := List.replicate USER_WORDS_SIZE 0, user_words_top := 0,
    compiling := false, current_def_start := 0 }

/-- ASCII bytes of a string, for readable dictionary names and tokens. -/
def bytes (s : String) : List Nat := s.toList.map Char.toNat

/-- Source `ForthInterpreter::add_builtin`: silently drops the registration when
the dictionary is full, otherwise appends a builtin entry whose stored
name is truncated to `MAX_WORD_NAME_LEN` bytes. -/
def add_builtin (self : ForthInterpreter) (name : List Nat) (id : Nat) :
    ForthInterpreter :=
  if DICTIONARY_SIZE ≤ self.dictionary.length then self
  else
    { self with dictionary := self.dictionary ++
        [{ name := name.take MAX_WORD_NAME_LEN,
           name_len := min name.length MAX_WORD_NAME_LEN,
           is_builtin := true, builtin_id := id,
           user_word_start := 0, user_word_len := 0 }] }

/-- Source `ForthInterpreter::init_builtins`: the startup registration sequence. -/
def init_builtins (self : ForthInterpreter) : ForthInterpreter :=
  [(bytes "+", BUILTIN_ADD), (bytes "-", BUILTIN_SUB),
   (bytes "*", BUILTIN_MUL), (bytes "/", BUILTIN_DIV),
   (bytes "mod", BUILTIN_MOD), (bytes "dup", BUILTIN_DUP),
   (bytes "drop", BUILTIN_DROP), (bytes "swap", BUILTIN_SWAP),
   (bytes "over", BUILTIN_OVER), (bytes "rot", BUILTIN_ROT),
   (bytes ".", BUILTIN_DOT), (bytes ".s", BUILTIN_DOTS),
   (bytes "cr", BUILTIN_CR), (bytes "bye", BUILTIN_BYE),
   (bytes ":", BUILTIN_COLON), (bytes ";", BUILTIN_SEMICOLON),
   (bytes "=", BUILTIN_EQUAL), (bytes "<", BUILTIN_LESS),
   (bytes ">", BUILTIN_GREATER), (bytes "words", BUILTIN_WORDS)
  ].foldl (fun s p => add_builtin s p.1 p.2) self

/-- The session state right after `_start` runs `new` + `init_builtins`. -/
def startState : ForthInterpreter := init_builtins ForthInterpreter.new

/-- Digit-accumulation loop of `ForthInterpreter::parse_number`:
`result = result * 10 + (byte - b'0')` with unchecked i32 arithmetic,
aborting on the first non-digit byte. -/
def parse_digits (result : Int) : List Nat → Option Int
  | [] => some result
  | byte :: rest =>
      if byte < 48 ∨ 57 < byte then none
      else parse_digits (wrap32 (result * 10 + ((byte : Int) - 48))) rest

/-- Source `ForthInterpreter::parse_number`: optional single leading `-`
(rejected when alone), then one or more decimal digits; final negation is
the unchecked i32 negation. -/
def parse_number (word : List Nat) : Option Int :=
  match word with
  | [] => none
  | b :: rest =>
      if b = 45 then
        match rest with
        | [] => none
        | _ => (parse_digits 0 rest).map (fun r => wrap32 (-r))
      else parse_digits 0 (b :: rest)

/-- Source `ForthInterpreter::word_matches`: byte-length and content equality. -/
def word_matches (word target : List Nat) : Bool := word == target

/-- Descending scan of `ForthInterpreter::find_word`, comparing the query
against the first `name_len` stored name bytes of each entry, from index
`i - 1` down to `0`. -/
def find_word_from (dict : List DictionaryEntry) (word : List Nat) :
    Nat → Option Nat
  | 0 => none
  | i + 1 =>
      let entry := dict.getD i DictionaryEntry.new
      if word_matches word (entry.name.take entry.name_len) then some i
      else find_word_from dict word i

/-- Source `ForthInterpreter::find_word`: scan the dictionary from the newest
entry to the oldest, returning the index of the first match. -/
def find_word (dict : List DictionaryEntry) (word : List Nat) : Option Nat :=
  find_word_from dict word dict.length

/-- Source `ForthInterpreter::execute_builtin`.  Returns `.ok true` for a request
to exit (`bye`), `.ok false` otherwise, and an error message on failure;
the second component is the (possibly partially) mutated session, matching
the Rust `&mut self` behaviour where pops performed before a failure
survive it. -/
def execute_builtin (self : ForthInterpreter) (id : Nat) :
    Except String Bool × ForthInterpreter :=
  match id with
  | 1 => -- BUILTIN_ADD
      match self.stack.pop with
      | .error e => (.error e, self)
      | .ok (b, s1) =>
          match s1.pop with
          | .error e => (.error e, { self with stack := s1 })
          | .ok (a, s2) =>
              match s2.push (wrap32 (a + b)) with
              | .error e => (.error e, { self with stack := s2 })
              | .ok s3 => (.ok false, { self with stack := s3 })
  | 2 => -- BUILTIN_SUB
      match self.stack.pop with
      | .error e => (.error e, self)
      | .ok (b, s1) =>
          match s1.pop with
          | .error e => (.error e, { self with stack := s1 })
          | .ok (a, s2) =>
              match s2.push (wrap32 (a - b)) with
              | .error e => (.error e, { self with stack := s2 })
              | .ok s3 => (.ok false, { self with stack := s3 })
  | 3 => -- BUILTIN_MUL
      match self.stack.pop with
      | .error e => (.error e, self)
      | .ok (b, s1) =>
          match s1.pop with
          | .error e => (.error e, { self with stack := s1 })
          | .ok (a, s2) =>
              match s2.push (wrap32 (a * b)) with
              | .error e => (.error e, { self with stack := s2 })
              | .ok s3 => (.ok false, { self with stack := s3 })
  | 4 => -- BUILTIN_DIV
      match self.stack.pop with
      | .error e => (.error e, self)
      | .ok (b, s1) =>
          match s1.pop with
          | .error e => (.error e, { self with stack := s1 })
          | .ok (a, s2) =>
              if b = 0 then (.error "Division by zero", { self with stack := s2 })
              else
                match s2.push (wrap32 (Int.tdiv a b)) with
                | .error e => (.error e, { self with stack := s2 })
                | .ok s3 => (.ok false, { self with stack := s3 })
  | 5 => -- BUILTIN_MOD
      match self.stack.pop with
      | .error e => (.error e, self)
      | .ok (b, s1) =>
          match s1.pop with
          | .error e => (.error e, { self with stack := s1 })
          | .ok (a, s2) =>
              if b = 0 then (.error "Division by zero", { self with stack := s2 })
              else
                match s2.push (wrap32 (Int.tmod a b)) with
                | .error e => (.error e, { self with stack := s2 })
                | .ok s3 => (.ok false, { self with stack := s3 })
  | 6 => -- BUILTIN_DUP
      match self.stack.peek with
      | .error e => (.error e, self)
      | .ok a =>
          match self.stack.push a with
          | .error e => (.error e, self)
          | .ok s1 => (.ok false, { self with stack := s1 })
  | 7 => -- BUILTIN_DROP
      match self.stack.pop with
      | .error e => (.error e, self)
      | .ok (_, s1) => (.ok false, { self with stack := s1 })
  | 8 => -- BUILTIN_SWAP
      match self.stack.pop with
      | .error e => (.error e, self)
      | .ok (b, s1) =>
          match s1.pop with
          | .error e => (.error e, { self with stack := s1 })
          | .ok (a, s2) =>
              match s2.push b with
              | .error e => (.error e, { self with stack := s2 })
              | .ok s3 =>
                  match s3.push a with
                  | .error e => (.error e, { self with stack := s3 })
                  | .ok s4 => (.ok false, { self with stack := s4 })
  | 9 => -- BUILTIN_OVER
      match self.stack.pop with
      | .error e => (.error e, self)
      | .ok (b, s1) =>
          match s1.pop with
          | .error e => (.error e, { self with stack := s1 })
          | .ok (a, s2) =>
              match s2.push a with
              | .error e => (.error e, { self with stack := s2 })
              | .ok s3 =>
                  match s3.push b with
                  | .error e => (.error e, { self with stack := s3 })
                  | .ok s4 =>
                      match s4.push a with
                      | .error e => (.error e, { self with stack := s4 })
                      | .ok s5 => (.ok false, { self with stack := s5 })
  | 10 => -- BUILTIN_ROT
      match self.stack.pop with
      | .error e => (.error e, self)
      | .ok (c, s1) =>
          match s1.pop with
          | .error e => (.error e, { self with stack := s1 })
          | .ok (b, s2) =>
              match s2.pop with
              | .error e => (.error e, { self with stack := s2 })
              | .ok (a, s3) =>
                  match s3.push b with
                  | .error e => (.error e, { self with stack := s3 })
                  | .ok s4 =>
                      match s4.push c with
                      | .error e => (.error e, { self with stack := s4 })
                      | .ok s5 =>
                          match s5.push a with
                          | .error e => (.error e, { self with stack := s5 })
                          | .ok s6 => (.ok false, { self with stack := s6 })
  | 11 => -- BUILTIN_DOT : pop and print
      match self.stack.pop with
      | .error e => (.error e, self)
      | .ok (_, s1) => (.ok false, { self with stack := s1 })
  | 12 => -- BUILTIN_DOTS : print only
      (.ok false, self)
  | 13 => -- BUILTIN_CR : print only
      (.ok false, self)
  | 14 => -- BUILTIN_BYE : request exit
      (.ok true, self)
  | 15 => -- BUILTIN_COLON
      if self.compiling then (.error "Already compiling", self)
      else (.ok false, { self with compiling := true, current_def_start := self.user_words_top })
  | 16 => -- BUILTIN_SEMICOLON
      if ¬ self.compiling then (.error "Not compiling", self)
      else (.ok false, { self with compiling := false })
  | 17 => -- BUILTIN_EQUAL
      match self.stack.pop with
      | .error e => (.error e, self)
      | .ok (b, s1) =>
          match s1.pop with
          | .error e => (.error e, { self with stack := s1 })
          | .ok (a, s2) =>
              match s2.push (if a = b then -1 else 0) with
              | .error e => (.error e, { self with stack := s2 })
              | .ok s3 => (.ok false, { self with stack := s3 })
  | 18 => -- BUILTIN_LESS
      match self.stack.pop with
      | .error e => (.error e, self)
      | .ok (b, s1) =>
          match s1.pop with
          | .error e => (.error e, { self with stack := s1 })
          | .ok (a, s2) =>
              match s2.push (if a < b then -1 else 0) with
              | .error e => (.error e, { self with stack := s2 })
              | .ok s3 => (.ok false, { self with stack := s3 })
  | 19 => -- BUILTIN_GREATER
      match self.stack.pop with
      | .error e => (.error e, self)
      | .ok (b, s1) =>
          match s1.pop with
          | .error e => (.error e, { self with stack := s1 })
          | .ok (a, s2) =>
              match s2.push (if b < a then -1 else 0) with
              | .error e => (.error e, { self with stack := s2 })
              | .ok s3 => (.ok false, { self with stack := s3 })
  | 20 => -- BUILTIN_WORDS : print only
      (.ok false, self)
  | _ => (.error "Unknown builtin", self)

/-- The user-word dictionary entry created by `execute_word` for an
unresolved token seen while compiling: name truncated to 16 bytes,
`builtin_id` left at the zeroed slot default, span
`[current_def_start, user_words_top)`. -/
def user_entry_for (self : ForthInterpreter) (word : List Nat) :
    DictionaryEntry :=
  { name := word.take MAX_WORD_NAME_LEN,
    name_len := min word.length MAX_WORD_NAME_LEN,
    is_builtin := false, builtin_id := 0,
    user_word_start := self.current_def_start,
    user_word_len := self.user_words_top - self.current_def_start }

/-- Source `ForthInterpreter::execute_word`: number parse first, then dictionary
lookup (builtin dispatch / inert user word), then the unknown-word paths
(define while compiling, error while interactive). -/
def execute_word (self : ForthInterpreter) (word : List Nat) :
    Except String Bool × ForthInterpreter :=
  match parse_number word with
  | some num =>
      match self.stack.push num with
      | .error e => (.error e, self)
      | .ok s1 => (.ok false, { self with stack := s1 })
  | none =>
      match find_word self.dictionary word with
      | some index =>
          let entry := self.dictionary.getD index DictionaryEntry.new
          if entry.is_builtin then execute_builtin self entry.builtin_id
          else (.ok false, self)
      | none =>
          if self.compiling then
            if DICTIONARY_SIZE ≤ self.dictionary.length then
              (.error "Dictionary full", self)
            else
              (.ok false, { self with
                 dictionary := self.dictionary ++ [user_entry_for self word] })
          else (.error "Unknown word", self)

/-- Tokenization pass of `ForthInterpreter::process_line`: space and tab
separate tokens, a null byte (or the end of the buffer) ends the line,
`acc` is the token currently being extracted. -/
def tokenize_from (acc : List Nat) : List Nat → List (List Nat)
  | [] => if acc = [] then [] else [acc]
  | c :: rest =>
      if c = 0 then (if acc = [] then [] else [acc])
      else if c = 32 ∨ c = 9 then
        (if acc = [] then tokenize_from [] rest
         else acc :: tokenize_from [] rest)
      else tokenize_from (acc ++ [c]) rest

/-- The whitespace-delimited tokens of a line, in order. -/
def tokenize (line : List Nat) : List (List Nat) := tokenize_from [] line

/-- Evaluation loop of `ForthInterpreter::process_line` over the extracted
tokens: the length guard against `WORD_BUFFER_SIZE` runs before each
token is executed, and the first error or exit request ends the line. -/
def eval_tokens (self : ForthInterpreter) :
    List (List Nat) → Except String Bool × ForthInterpreter
  | [] => (.ok false, self)
  | w :: ws =>
      if WORD_BUFFER_SIZE ≤ w.length then (.error "Word too long", self)
      else
        match execute_word self w with
        | (.ok false, s1) => eval_tokens s1 ws
        | r => r

/-- Source `ForthInterpreter::process_line` on the line currently held in the
input buffer. -/
def process_line (self : ForthInterpreter) (line : List Nat) :
    Except String Bool × ForthInterpreter :=
  eval_tokens self (tokenize line)

/-- One iteration of the `ForthInterpreter::run` REPL loop on one input
line: the resulting session state, the diagnostic lines printed after the
line was processed, and whether the loop exits.  The `Err` arm prints
`Error: <message>` and, when the session is still compiling, also prints
`Compilation aborted`, leaves compile mode and reverts the body-buffer
write offset to the current definition's start. -/
def run_iteration (self : ForthInterpreter) (line : List Nat) :
    ForthInterpreter × List String × Bool :=
  match process_line self line with
  | (.ok should_exit, s1) =>
      if should_exit then (s1, [], true)
      else (s1, if s1.compiling then [] else ["ok\n"], false)
  | (.error err, s1) =>
      if s1.compiling then
        ({ s1 with compiling := false, user_words_top := s1.current_def_start },
         ["Error: ", err, "\n", "Compilation aborted\n"], false)
      else (s1, ["Error: ", err, "\n"], false)

/-- The session states reachable by the `run` loop from `_start`'s
initialization, one input line at a time. -/
inductive Reachable : ForthInterpreter → Prop
  | start : Reachable startState
  | step (s : ForthInterpreter) (line : List Nat) :
      Reachable s → Reachable (run_iteration s line).1

deriving instance DecidableEq for Except

/-- Push a whole sequence of values, left to right, stopping at the first
failure (iterated `ForthStack::push`). -/
def pushList (s : ForthStack) : List Int → Except String ForthStack
  | [] => .ok s
  | v :: vs =>
      match s.push v with
      | .error e => .error e
      | .ok s1 => pushList s1 vs

/-- Pop `n` values, returning them in pop order together with the
remaining stack, stopping at the first failure (iterated
`ForthStack::pop`). -/
def popN (s : ForthStack) : Nat → Except String (List Int × ForthStack)
  | 0 => .ok ([], s)
  | n + 1 =>
      match s.pop with
      | .error e => .error e
      | .ok (v, s1) =>
          match popN s1 n with
          | .error e => .error e
          | .ok (vs, s2) => .ok (v :: vs, s2)

/-- A minimal session that knows only the `:` builtin and is already
mid-definition, used to exhibit the compile-mode error recovery. -/
def colonOnlyState : ForthInterpreter :=
  { ForthInterpreter.new with
    dictionary := [{ name := [58], name_len := 1, is_builtin := true,
                     builtin_id := BUILTIN_COLON, user_word_start := 0,
                     user_word_len := 0 }],
    compiling := true }

/-- An ASCII decimal digit byte, `b'0' ..= b'9'`. -/
def isDigitByte (b : Nat) : Bool := decide (48 ≤ b ∧ b ≤ 57)

/-- Spec-side shape of a numeric token ("an optional single leading `-`
followed by one or more ASCII digits"), written from the specification's
words for the refinement statement about `parse_number`. -/
def numeric_token_spec (w : List Nat) : Bool :=
  match w with
  | [] => false
  | b :: t =>
      if b = 45 then !t.isEmpty && t.all isDigitByte
      else (b :: t).all isDigitByte

/-- Whether a query matches a dictionary entry the way
`ForthInterpreter::find_word` compares them: against the first
`name_len` stored name bytes. -/
def entry_matches (word : List Nat) (e : DictionaryEntry) : Bool :=
  word_matches word (e.name.take e.name_len)

/-- The user-word body arena is untouched: write offset and definition
start are both zero, the arena still holds its zero-initialized bytes,
and every dictionary entry records an empty body span. -/
def UserArenaInv (s : ForthInterpreter) : Prop :=
  s.user_words_top = 0 ∧ s.current_def_start = 0 ∧
  s.user_words = List.replicate USER_WORDS_SIZE 0 ∧
  ∀ e ∈ s.dictionary, e.user_word_len = 0

/-! ## Helper lemmas -/

theorem wrap32_bounds (x : Int) : -2 ^ 31 ≤ wrap32 x ∧ wrap32 x < 2 ^ 31 := by
  unfold wrap32
  have h1 : 0 ≤ (x + 2 ^ 31) % 2 ^ 32 := Int.emod_nonneg _ (by norm_num)
  have h2 : (x + 2 ^ 31) % 2 ^ 32 < 2 ^ 32 := Int.emod_lt_of_pos _ (by norm_num)
  omega

theorem wrap32_emod (x : Int) : wrap32 x % 2 ^ 32 = x % 2 ^ 32 := by
  unfold wrap32
  conv_rhs => rw [show x = x + 2 ^ 31 - 2 ^ 31 by ring]
  rw [Int.sub_emod ((x + 2 ^ 31) % 2 ^ 32) (2 ^ 31) (2 ^ 32),
      Int.emod_emod_of_dvd _ dvd_rfl, ← Int.sub_emod]

theorem pushList_ok (vs : List Int) : ∀ s : ForthStack,
    s.length + vs.length ≤ STACK_SIZE → pushList s vs = .ok (vs.reverse ++ s) := by
  induction vs with
  | nil => intro s _; simp [pushList]
  | cons v vs ih =>
      intro s h
      have hlt : ¬ STACK_SIZE ≤ s.length := by
        simp only [List.length_cons] at h; omega
      have h' : (v :: s).length + vs.length ≤ STACK_SIZE := by
        simp only [List.length_cons] at h ⊢; omega
      simp [pushList, ForthStack.push, hlt, ih (v :: s) h']

theorem popN_self (s : ForthStack) : popN s s.length = .ok (s, []) := by
  induction s with
  | nil => rfl
  | cons v rest ih => simp [popN, ForthStack.pop, ih]

/-! ## Claim theorems -/

/-- C5: the value stack keeps `0 ≤ top ≤ capacity` (capacity 64) under
every operation: `push` on a full stack signals `Stack overflow` (and,
being modelled as a pure function returning `Except`, produces no new
stack, so contents and top are unchanged), a successful `push` from a
within-capacity stack stays within capacity, and `pop`/`peek` on the
empty stack signal `Stack underflow`/`Stack empty` without producing a
mutated stack; a successful `pop` shrinks the stack by exactly one, so it
also stays within capacity. -/
theorem C5_stack_invariant (s : ForthStack) (v : Int) :
    ForthStack.pop ForthStack.new = .error "Stack underflow" ∧
    ForthStack.peek ForthStack.new = .error "Stack empty" ∧
    (STACK_SIZE ≤ s.length → ForthStack.push s v = .error "Stack overflow") ∧
    (s.length ≤ STACK_SIZE → ∀ s', ForthStack.push s v = .ok s' →
       s'.length ≤ STACK_SIZE) ∧
    (∀ x s', ForthStack.pop s = .ok (x, s') → s'.length + 1 = s.length) := by
  refine ⟨rfl, rfl, ?_, ?_, ?_⟩
  · intro h; simp [ForthStack.push, h]
  · intro _ s' h
    by_cases hfull : STACK_SIZE ≤ s.length
    · simp [ForthStack.push, hfull] at h
    · simp only [ForthStack.push, if_neg hfull] at h
      cases h
      simp only [List.length_cons]
      omega
  · intro x s' h
    cases s with
    | nil => simp [ForthStack.pop] at h
    | cons a rest =>
        simp only [ForthStack.pop] at h
        cases h
        rfl

/-- C5 witness: pushing onto a stack already holding 64 values signals
`Stack overflow`, and popping the 3-element stack `[7, 8, 9]` succeeds
and shrinks it by one. -/
theorem C5_stack_invariant_witness :
    ForthStack.push (List.replicate 64 0) 5 = .error "Stack overflow" ∧
    (([5, 8, 9] : ForthStack).length + 1 = ([7, 5, 8, 9] : ForthStack).length) := by
  refine ⟨(C5_stack_invariant (List.replicate 64 0) 5).2.2.1 (by simp [STACK_SIZE]), ?_⟩
  exact (C5_stack_invariant [7, 5, 8, 9] 0).2.2.2.2 7 [5, 8, 9] rfl

/-- C7: LIFO law.  Starting from the empty stack, pushing any sequence of
at most 64 values succeeds and yields the stack holding them with the
last push on top, and popping as many values returns exactly the pushed
values in reverse push order, emptying the stack. -/
theorem C7_lifo (vs : List Int) (h : vs.length ≤ STACK_SIZE) :
    pushList ForthStack.new vs = .ok vs.reverse ∧
    popN vs.reverse vs.length = .ok (vs.reverse, ForthStack.new) := by
  constructor
  · have := pushList_ok vs ForthStack.new (by simpa [ForthStack.new] using h)
    simpa [ForthStack.new] using this
  · have := popN_self vs.reverse
    rwa [List.length_reverse] at this

/-- C7 witness: pushing `1, 2, 3` then popping three times returns
`3, 2, 1`. -/
theorem C7_lifo_witness :
    pushList ForthStack.new [1, 2, 3] = .ok [3, 2, 1] ∧
    popN [3, 2, 1] 3 = .ok ([3, 2, 1], ForthStack.new) :=
  C7_lifo [1, 2, 3] (by norm_num [STACK_SIZE])

/-- C2: with at least two stack items and top element `b = 0`, both `/`
and `mod` pop both operands first and only then check for zero, so they
signal `Division by zero` without dividing and the resulting session has
lost both operands from its stack. -/
theorem C2_div_mod_by_zero (self : ForthInterpreter) (a : Int)
    (rest : List Int) (h : self.stack = 0 :: a :: rest) :
    execute_builtin self BUILTIN_DIV =
      (.error "Division by zero", { self with stack := rest }) ∧
    execute_builtin self BUILTIN_MOD =
      (.error "Division by zero", { self with stack := rest }) := by
  constructor <;>
    simp [execute_builtin, BUILTIN_DIV, BUILTIN_MOD, ForthStack.pop, h]

/-- C2 witness: dividing with stack `10 0` (top `0`) fails with
`Division by zero` for both `/` and `mod`, leaving the stack empty. -/
theorem C2_div_mod_by_zero_witness :
    execute_builtin { ForthInterpreter.new with stack := [0, 10] } BUILTIN_DIV =
      (.error "Division by zero",
       { ForthInterpreter.new with stack := ([] : List Int) }) ∧
    execute_builtin { ForthInterpreter.new with stack := [0, 10] } BUILTIN_MOD =
      (.error "Division by zero",
       { ForthInterpreter.new with stack := ([] : List Int) }) :=
  C2_div_mod_by_zero { ForthInterpreter.new with stack := [0, 10] } 10 [] rfl

/-- C9: no overflow checks anywhere: on any two operands the `+ - *`
builtins always succeed (room permitting) and push the two's-complement
wrap of the exact result, the wrap agrees with the exact result modulo
`2^32` and lands in `[-2^31, 2^31)`, and the digit-accumulation step of
the number parser is the same wrapping operation
`result * 10 + (byte - b'0')`. -/
theorem C9_wrapping_arithmetic (self : ForthInterpreter) (a b : Int)
    (rest : List Int) (h : self.stack = b :: a :: rest)
    (hroom : rest.length < STACK_SIZE) :
    (execute_builtin self BUILTIN_ADD =
       (.ok false, { self with stack := wrap32 (a + b) :: rest }) ∧
     execute_builtin self BUILTIN_SUB =
       (.ok false, { self with stack := wrap32 (a - b) :: rest }) ∧
     execute_builtin self BUILTIN_MUL =
       (.ok false, { self with stack := wrap32 (a * b) :: rest })) ∧
    (∀ x : Int, wrap32 x % 2 ^ 32 = x % 2 ^ 32 ∧
       -2 ^ 31 ≤ wrap32 x ∧ wrap32 x < 2 ^ 31) ∧
    (∀ (acc : Int) (d : Nat) (ds : List Nat), 48 ≤ d → d ≤ 57 →
       parse_digits acc (d :: ds) =
         parse_digits (wrap32 (acc * 10 + ((d : Int) - 48))) ds) := by
  have hnotfull : ¬ STACK_SIZE ≤ rest.length := Nat.not_le.mpr hroom
  refine ⟨⟨?_, ?_, ?_⟩, ?_, ?_⟩
  · simp [execute_builtin, BUILTIN_ADD, ForthStack.pop, ForthStack.push, h, hnotfull]
  · simp [execute_builtin, BUILTIN_SUB, ForthStack.pop, ForthStack.push, h, hnotfull]
  · simp [execute_builtin, BUILTIN_MUL, ForthStack.pop, ForthStack.push, h, hnotfull]
  · exact fun x => ⟨wrap32_emod x, wrap32_bounds x⟩
  · intro acc d ds h48 h57
    have : ¬ (d < 48 ∨ 57 < d) := by omega
    simp [parse_digits, this]

/-- C9 witness: `2147483647 1 +` wraps to `-2147483648`, and the digit
step on `acc = 0`, byte `b'7'` accumulates `7`. -/
theorem C9_wrapping_arithmetic_witness :
    execute_builtin { ForthInterpreter.new with stack := [1, 2147483647] } BUILTIN_ADD =
      (.ok false, { ForthInterpreter.new with stack := [-2147483648] }) ∧
    parse_digits 0 [55] = parse_digits (wrap32 7) [] := by
  have h := C9_wrapping_arithmetic
    { ForthInterpreter.new with stack := [1, 2147483647] } 2147483647 1 []
    rfl (by norm_num [STACK_SIZE])
  refine ⟨?_, h.2.2 0 55 [] (by norm_num) (by norm_num)⟩
  have hw : wrap32 ((2147483647 : Int) + 1) = -2147483648 := by decide
  have h1 := h.1.1
  rw [hw] at h1
  exact h1

theorem parse_digits_isSome (ds : List Nat) : ∀ acc : Int,
    (parse_digits acc ds).isSome = ds.all isDigitByte := by
  induction ds with
  | nil => intro acc; simp [parse_digits]
  | cons d ds ih =>
      intro acc
      by_cases hd : d < 48 ∨ 57 < d
      · have hdig : isDigitByte d = false := by
          simp only [isDigitByte, decide_eq_false_iff_not]
          omega
        simp [parse_digits, hd, hdig]
      · have hdig : isDigitByte d = true := by
          simp only [isDigitByte, decide_eq_true_eq]
          omega
        simp [parse_digits, hd, hdig, ih]

/-- C8: the number parser succeeds exactly on an optional single leading
`-` followed by one or more ASCII digits `0`-`9`; in particular the empty
token and the lone `-` are rejected, and any other byte anywhere makes it
fail so the token falls through to dictionary lookup. -/
theorem C8_number_parse_shape (w : List Nat) :
    (parse_number w).isSome = numeric_token_spec w := by
  cases w with
  | nil => rfl
  | cons b rest =>
      by_cases hb : b = 45
      · subst hb
        cases rest with
        | nil => rfl
        | cons c t =>
            simp [parse_number, numeric_token_spec, parse_digits_isSome]
      · simp [parse_number, numeric_token_spec, hb, parse_digits_isSome]

theorem find_word_from_spec (dict : List DictionaryEntry) (word : List Nat) :
    ∀ n i : Nat,
      find_word_from dict word n = some i ↔
        (i < n ∧ entry_matches word (dict.getD i DictionaryEntry.new) = true ∧
         ∀ j, i < j → j < n →
           entry_matches word (dict.getD j DictionaryEntry.new) = false) := by
  intro n
  induction n with
  | zero => intro i; simp [find_word_from]
  | succ m ih =>
      intro i
      simp only [find_word_from]
      by_cases hm : entry_matches word (dict.getD m DictionaryEntry.new) = true
      · rw [if_pos (by simpa [entry_matches] using hm)]
        constructor
        · intro h'
          have him : i = m := by
            cases h'
            rfl
          subst him
          exact ⟨Nat.lt_succ_self i, hm, fun j hj1 hj2 => by omega⟩
        · rintro ⟨hi, hmi, hall⟩
          have him : i = m := by
            by_contra hne
            have hilt : i < m := by omega
            have := hall m hilt (Nat.lt_succ_self m)
            rw [this] at hm
            exact Bool.false_ne_true hm
          subst him
          rfl
      · rw [if_neg (by simpa [entry_matches] using hm)]
        rw [ih i]
        have hmfalse : entry_matches word (dict.getD m DictionaryEntry.new) = false :=
          Bool.eq_false_iff.mpr (fun h' => hm h')
        constructor
        · rintro ⟨hi, hmi, hall⟩
          refine ⟨by omega, hmi, fun j hj1 hj2 => ?_⟩
          by_cases hjm : j = m
          · subst hjm; exact hmfalse
          · exact hall j hj1 (by omega)
        · rintro ⟨hi, hmi, hall⟩
          have him : i ≠ m := by
            intro he
            subst he
            rw [hmi] at hmfalse
            exact Bool.false_ne_true hmfalse.symm
          exact ⟨by omega, hmi, fun j hj1 hj2 => hall j hj1 (by omega)⟩

/-- C4: dictionary lookup scans newest-to-oldest and returns the first
exact byte-length-and-content match: `find_word` returns index `i`
exactly when entry `i` matches and no newer entry does; consequently,
appending an entry whose name matches the query (any builtin/user
combination) makes lookup return that newest entry, shadowing without
removal. -/
theorem C4_lookup_shadowing :
    (∀ (dict : List DictionaryEntry) (word : List Nat) (i : Nat),
       find_word dict word = some i ↔
         (i < dict.length ∧
          entry_matches word (dict.getD i DictionaryEntry.new) = true ∧
          ∀ j, i < j → j < dict.length →
            entry_matches word (dict.getD j DictionaryEntry.new) = false)) ∧
    (∀ (dict : List DictionaryEntry) (e : DictionaryEntry) (word : List Nat),
       entry_matches word e = true →
       find_word (dict ++ [e]) word = some dict.length) := by
  constructor
  · intro dict word i
    exact find_word_from_spec dict word dict.length i
  · intro dict e word h
    unfold find_word
    rw [show (dict ++ [e]).length = dict.length + 1 by simp]
    simp only [find_word_from]
    have hget : (dict ++ [e]).getD dict.length DictionaryEntry.new = e := by
      rw [List.getD_append_right dict [e] DictionaryEntry.new dict.length le_rfl]
      simp
    rw [hget]
    rw [if_pos (by simpa [entry_matches] using h)]

/-- C4 witness: in a two-entry dictionary whose entries share the name
`x`, lookup returns the newer entry (index 1), and in a one-entry
dictionary the shadowing law places a matching appended entry at index 0. -/
theorem C4_lookup_shadowing_witness :
    find_word
      [{ name := [120], name_len := 1, is_builtin := true, builtin_id := 6,
         user_word_start := 0, user_word_len := 0 },
       { name := [120], name_len := 1, is_builtin := false, builtin_id := 0,
         user_word_start := 0, user_word_len := 0 }] [120] = some 1 :=
  C4_lookup_shadowing.2
    [{ name := [120], name_len := 1, is_builtin := true, builtin_id := 6,
       user_word_start := 0, user_word_len := 0 }]
    { name := [120], name_len := 1, is_builtin := false, builtin_id := 0,
      user_word_start := 0, user_word_len := 0 } [120] (by decide)

/-- C1: per-token evaluation order of `execute_word`: a token that parses
as a number pushes the literal (propagating a push failure) and does
nothing else; otherwise a dictionary hit on a builtin entry dispatches
`execute_builtin`, a hit on a user entry has no effect at all on the
session; a miss in interactive mode fails with `Unknown word`, and a miss
while compiling appends (capacity permitting) a user-tagged entry whose
span is `[current_def_start, user_words_top)`. -/
theorem C1_eval_order (self : ForthInterpreter) (word : List Nat) :
    (∀ num s1, parse_number word = some num → self.stack.push num = .ok s1 →
       execute_word self word = (.ok false, { self with stack := s1 })) ∧
    (∀ num e, parse_number word = some num → self.stack.push num = .error e →
       execute_word self word = (.error e, self)) ∧
    (∀ index, parse_number word = none →
       find_word self.dictionary word = some index →
       ((self.dictionary.getD index DictionaryEntry.new).is_builtin = true →
          execute_word self word =
            execute_builtin self
              (self.dictionary.getD index DictionaryEntry.new).builtin_id) ∧
       ((self.dictionary.getD index DictionaryEntry.new).is_builtin = false →
          execute_word self word = (.ok false, self))) ∧
    (parse_number word = none → find_word self.dictionary word = none →
       self.compiling = false →
       execute_word self word = (.error "Unknown word", self)) ∧
    (parse_number word = none → find_word self.dictionary word = none →
       self.compiling = true →
       (DICTIONARY_SIZE ≤ self.dictionary.length →
          execute_word self word = (.error "Dictionary full", self)) ∧
       (self.dictionary.length < DICTIONARY_SIZE →
          execute_word self word =
            (.ok false, { self with dictionary :=
               self.dictionary ++ [user_entry_for self word] }) ∧
          (user_entry_for self word).is_builtin = false ∧
          (user_entry_for self word).user_word_start = self.current_def_start ∧
          (user_entry_for self word).user_word_len =
            self.user_words_top - self.current_def_start)) := by
  refine ⟨?_, ?_, ?_, ?_, ?_⟩
  · intro num s1 hp hpush
    simp [execute_word, hp, hpush]
  · intro num e hp hpush
    simp [execute_word, hp, hpush]
  · intro index hp hf
    constructor
    · intro hb
      rw [List.getD_eq_getElem?_getD] at hb
      simp [execute_word, hp, hf, hb, List.getD_eq_getElem?_getD]
    · intro hb
      rw [List.getD_eq_getElem?_getD] at hb
      simp [execute_word, hp, hf, hb, List.getD_eq_getElem?_getD]
  · intro hp hf hc
    simp [execute_word, hp, hf, hc]
  · intro hp hf hc
    constructor
    · intro hfull
      simp [execute_word, hp, hf, hc, hfull, Nat.not_lt.mpr hfull]
    · intro hroom
      refine ⟨?_, rfl, rfl, rfl⟩
      simp [execute_word, hp, hf, hc, Nat.not_le.mpr hroom]

/-- C1 witness: in a compiling session with an empty dictionary, the
token `sq` is neither a number nor resolvable, so it is registered as a
user word with the empty span `[0, 0)`; and the token `7` parses as a
number and is pushed. -/
theorem C1_eval_order_witness :
    execute_word { ForthInterpreter.new with compiling := true } [115, 113] =
      (.ok false, { ForthInterpreter.new with compiling := true, dictionary := [user_entry_for { ForthInterpreter.new with compiling := true } [115, 113]] }) ∧
    execute_word ForthInterpreter.new [55] =
      (.ok false, { ForthInterpreter.new with stack := [7] }) := by
  constructor
  · have h := ((C1_eval_order { ForthInterpreter.new with compiling := true }
      [115, 113]).2.2.2.2 (by decide) (by decide) rfl).2 (by decide)
    exact h.1
  · exact (C1_eval_order ForthInterpreter.new [55]).1 7 [7] (by decide) rfl

theorem tokenize_from_solid (w : List Nat)
    (hbytes : ∀ b ∈ w, ¬(b = 0 ∨ b = 32 ∨ b = 9)) :
    ∀ acc : List Nat, acc ≠ [] ∨ w ≠ [] →
      tokenize_from acc w = [acc ++ w] := by
  induction w with
  | nil =>
      intro acc hne
      have : acc ≠ [] := by
        rcases hne with h | h
        · exact h
        · exact absurd rfl h
      simp [tokenize_from, this]
  | cons c rest ih =>
      intro acc _
      have hc := hbytes c (by simp)
      have hrest : ∀ b ∈ rest, ¬(b = 0 ∨ b = 32 ∨ b = 9) := by
        intro b hb
        exact hbytes b (by simp [hb])
      have h0 : ¬ c = 0 := fun h => hc (Or.inl h)
      have hsep : ¬ (c = 32 ∨ c = 9) := fun h => hc (Or.inr h)
      rw [tokenize_from, if_neg h0, if_neg hsep,
          ih hrest (acc ++ [c]) (Or.inl (by simp))]
      simp

/-- C3: compile-mode error recovery of the REPL loop.  First, inside a
line, the first failing token ends evaluation of the line at once,
whatever tokens remain.  Second, when a line's evaluation fails and the
session is still compiling, the loop iteration prints the
`Error: <message>` diagnostic followed by `Compilation aborted`, reverts
the body-buffer write offset to the current definition's start and leaves
compile mode; this happens uniformly for every error message. -/
theorem C3_compile_error_recovery :
    (∀ (self : ForthInterpreter) (w : List Nat) (ws : List (List Nat))
       (e : String) (s1 : ForthInterpreter),
       execute_word self w = (.error e, s1) → w.length < WORD_BUFFER_SIZE →
       eval_tokens self (w :: ws) = (.error e, s1)) ∧
    (∀ (self : ForthInterpreter) (line : List Nat) (e : String)
       (s1 : ForthInterpreter),
       process_line self line = (.error e, s1) → s1.compiling = true →
       run_iteration self line =
         ({ s1 with compiling := false, user_words_top := s1.current_def_start },
          ["Error: ", e, "\n", "Compilation aborted\n"], false)) := by
  constructor
  · intro self w ws e s1 hE hlen
    rw [eval_tokens, if_neg (Nat.not_le.mpr hlen), hE]
  · intro self line e s1 hp hc
    unfold run_iteration
    rw [hp]
    simp [hc]

set_option maxRecDepth 100000 in
/-- C3 witness: in the mid-definition session `colonOnlyState`, the line
`:` fails with `Already compiling`; the loop iteration prints the
diagnostic and the abort notice, reverts the write offset and returns to
interactive mode. -/
theorem C3_compile_error_recovery_witness :
    run_iteration colonOnlyState [58] =
      ({ colonOnlyState with compiling := false, user_words_top := 0 },
       ["Error: ", "Already compiling", "\n", "Compilation aborted\n"], false) :=
  C3_compile_error_recovery.2 colonOnlyState [58] "Already compiling"
    colonOnlyState (by decide) rfl

/-- C6 (amended): the line input buffer holds 256 bytes and the
token-copy buffer 32 bytes (`INPUT_BUFFER_SIZE`/`WORD_BUFFER_SIZE` in
src/afd.rs); a whitespace-free token of 32 bytes or more makes
`process_line` signal `Word too long` and abort the line with the session
untouched, while a shorter token is accepted and handed to
`execute_word`. -/
theorem C6_word_length_limit (self : ForthInterpreter) (w : List Nat)
    (hne : w ≠ []) (hbytes : ∀ b ∈ w, ¬(b = 0 ∨ b = 32 ∨ b = 9)) :
    (WORD_BUFFER_SIZE ≤ w.length →
       process_line self w = (.error "Word too long", self)) ∧
    (w.length < WORD_BUFFER_SIZE → process_line self w = execute_word self w) := by
  have ht : tokenize w = [w] := by
    unfold tokenize
    rw [tokenize_from_solid w hbytes [] (Or.inr hne)]
    simp
  constructor
  · intro h
    unfold process_line
    rw [ht, eval_tokens, if_pos h]
  · intro h
    unfold process_line
    rw [ht, eval_tokens, if_neg (Nat.not_le.mpr h)]
    rcases hE : execute_word self w with ⟨res, s1⟩
    match res with
    | .ok false => simp [eval_tokens]
    | .ok true => rfl
    | .error e => rfl

set_option maxRecDepth 100000 in
/-- C6 counterexample: the claim's buffer sizes are the ones of the
other variant (src/main.rs).  In the canonical engine the input buffer
holds 256 bytes and the token buffer 32, so a 32-byte token — well below
the claimed 64-byte threshold — already fails with `Word too long` on the
freshly started session. -/
theorem C6_word_length_limit_counterexample :
    INPUT_BUFFER_SIZE = 256 ∧ WORD_BUFFER_SIZE = 32 ∧
    (List.replicate 32 97).length < 64 ∧
    process_line startState (List.replicate 32 97) =
      (.error "Word too long", startState) :=
  ⟨rfl, rfl, by decide, by decide⟩

/-- C6 witness: a 40-byte token also fails with `Word too long`. -/
theorem C6_word_length_limit_witness :
    process_line ForthInterpreter.new (List.replicate 40 98) =
      (.error "Word too long", ForthInterpreter.new) :=
  (C6_word_length_limit ForthInterpreter.new (List.replicate 40 98)
    (by decide) (by decide)).1 (by decide)

theorem add_builtin_inv (self : ForthInterpreter) (name : List Nat)
    (id : Nat) (h : UserArenaInv self) :
    UserArenaInv (add_builtin self name id) := by
  obtain ⟨h1, h2, h3, h4⟩ := h
  unfold add_builtin
  split
  · exact ⟨h1, h2, h3, h4⟩
  · refine ⟨h1, h2, h3, ?_⟩
    intro e he
    simp only [List.mem_append, List.mem_singleton] at he
    rcases he with he | he
    · exact h4 e he
    · subst he; rfl

theorem execute_builtin_inv (self : ForthInterpreter) (id : Nat)
    (h : UserArenaInv self) :
    UserArenaInv (execute_builtin self id).2 := by
  obtain ⟨h1, h2, h3, h4⟩ := h
  unfold execute_builtin UserArenaInv
  split <;> (repeat' split) <;> simp_all

theorem execute_word_inv (self : ForthInterpreter) (word : List Nat)
    (h : UserArenaInv self) :
    UserArenaInv (execute_word self word).2 := by
  unfold execute_word
  split
  · split
    · exact h
    · obtain ⟨h1, h2, h3, h4⟩ := h
      exact ⟨h1, h2, h3, h4⟩
  · split
    · dsimp only
      split
      · exact execute_builtin_inv self _ h
      · exact h
    · split
      · split
        · exact h
        · obtain ⟨h1, h2, h3, h4⟩ := h
          refine ⟨h1, h2, h3, ?_⟩
          intro e he
          simp only [List.mem_append, List.mem_singleton] at he
          rcases he with he | he
          · exact h4 e he
          · subst he
            simp [user_entry_for, h1, h2]
      · exact h

theorem eval_tokens_inv (ts : List (List Nat)) : ∀ self : ForthInterpreter,
    UserArenaInv self → UserArenaInv (eval_tokens self ts).2 := by
  induction ts with
  | nil => intro self h; exact h
  | cons w ws ih =>
      intro self h
      unfold eval_tokens
      split
      · exact h
      · split
        · next s1 heq =>
            apply ih
            have := execute_word_inv self w h
            rw [heq] at this
            exact this
        · next r hne =>
            have := execute_word_inv self w h
            exact this

theorem run_iteration_inv (self : ForthInterpreter) (line : List Nat)
    (h : UserArenaInv self) :
    UserArenaInv (run_iteration self line).1 := by
  have hpl : UserArenaInv (process_line self line).2 :=
    eval_tokens_inv (tokenize line) self h
  unfold run_iteration
  split
  · next s1 heq =>
      rw [heq] at hpl
      split
      · exact hpl
      · exact hpl
  · next e s1 heq =>
      rw [heq] at hpl
      obtain ⟨h1, h2, h3, h4⟩ := hpl
      split
      · exact ⟨h2, h2, h3, h4⟩
      · exact ⟨h1, h2, h3, h4⟩

theorem foldl_add_builtin_inv (ps : List (List Nat × Nat)) :
    ∀ self : ForthInterpreter, UserArenaInv self →
      UserArenaInv (ps.foldl (fun s p => add_builtin s p.1 p.2) self) := by
  induction ps with
  | nil => intro self h; exact h
  | cons p ps ih =>
      intro self h
      simp only [List.foldl_cons]
      exact ih _ (add_builtin_inv self p.1 p.2 h)

theorem reachable_inv (s : ForthInterpreter) (h : Reachable s) :
    UserArenaInv s := by
  induction h with
  | start =>
      unfold startState init_builtins
      apply foldl_add_builtin_inv
      exact ⟨rfl, rfl, rfl, by simp [ForthInterpreter.new]⟩
  | step s line _ ih => exact run_iteration_inv s line ih

/-- C10: in every session state reachable by the REPL loop from startup,
the body-buffer write offset `user_words_top` and `current_def_start` are
both `0`, the body arena still holds its initial zero bytes (nothing ever
writes into it), and every user-tagged dictionary entry has an empty span
(`user_word_len = 0`). -/
theorem C10_arena_never_written (s : ForthInterpreter) (h : Reachable s) :
    s.user_words_top = 0 ∧ s.current_def_start = 0 ∧
    s.user_words = List.replicate USER_WORDS_SIZE 0 ∧
    ∀ e ∈ s.dictionary, e.is_builtin = false → e.user_word_len = 0 := by
  obtain ⟨h1, h2, h3, h4⟩ := reachable_inv s h
  exact ⟨h1, h2, h3, fun e he _ => h4 e he⟩

/-- C10 witness: the state reached after the start-up session processes
the line `: sq dup` (entering compile mode and defining `sq`) still has a
zero write offset, zero definition start, a pristine arena, and only
empty-span user entries. -/
theorem C10_arena_never_written_witness :
    (run_iteration startState (bytes ": sq dup")).1.user_words_top = 0 ∧
    (run_iteration startState (bytes ": sq dup")).1.current_def_start = 0 ∧
    (run_iteration startState (bytes ": sq dup")).1.user_words =
      List.replicate USER_WORDS_SIZE 0 ∧
    ∀ e ∈ (run_iteration startState (bytes ": sq dup")).1.dictionary,
      e.is_builtin = false → e.user_word_len = 0 :=
  C10_arena_never_written (run_iteration startState (bytes ": sq dup")).1
    (Reachable.step startState (bytes ": sq dup") Reachable.start)

end Afd
